import Mathlib

/-!
Shallow embedding of `handler.go` (package influxdb): the administrative HTTP
gateway.  Go byte strings are modelled as `List Nat` (one `Nat` per byte);
Go `string` indexing, `strings.Split` and `base64.StdEncoding` are modelled
at the byte level.  The external resource store (`h.server`, implemented in
`server.go`, outside this file's source) is modelled as a record of abstract
operation functions, and every handler returns, besides the HTTP response it
writes, the ordered list of authenticator calls and store mutations it
performed, so that "the store is never invoked" is a statement about that list.
-/

namespace InfluxHandler

/-- A Go string: a sequence of bytes (each `< 256` on real inputs). -/
abbrev GoStr := List Nat

/-- Bytes of an ASCII string literal (for ASCII text this is the UTF-8 form
Go uses). -/
def asciiBytes (s : String) : GoStr := s.data.map Char.toNat

/-- Go `strings.Split(s, sep)` for a single-byte separator `sep`:
splits around every occurrence of the separator.  `goSplit [] sep = [[]]`,
matching Go's `strings.Split("", sep) = [""]`. -/
def goSplit (s : GoStr) (sep : Nat) : List GoStr :=
  match s with
  | [] => [[]]
  | c :: rest =>
    match goSplit rest sep with
    | [] => [[]]
    | f :: fs => if c = sep then [] :: f :: fs else (c :: f) :: fs

/-- The standard base64 alphabet (`A-Z`, `a-z`, `0-9`, `+`, `/`), as the
byte of the character encoding the 6-bit value `n`. -/
def b64char (n : Nat) : Nat :=
  if n < 26 then 65 + n
  else if n < 52 then 97 + (n - 26)
  else if n < 62 then 48 + (n - 52)
  else if n = 62 then 43
  else 47

/-- Inverse of the standard base64 alphabet; `none` on a byte outside the
alphabet (padding `=` is handled by the quantum decoder, not here). -/
def b64inv (c : Nat) : Option Nat :=
  if 65 ≤ c ∧ c ≤ 90 then some (c - 65)
  else if 97 ≤ c ∧ c ≤ 122 then some (c - 97 + 26)
  else if 48 ≤ c ∧ c ≤ 57 then some (c - 48 + 52)
  else if c = 43 then some 62
  else if c = 47 then some 63
  else none

/-- Go `base64.StdEncoding.EncodeToString`: encode bytes in 3-byte groups to
4 alphabet characters, padding the final partial group with `=` (byte 61). -/
def b64encode : GoStr → GoStr
  | [] => []
  | [a] => [b64char (a / 4), b64char (a % 4 * 16), 61, 61]
  | [a, b] => [b64char (a / 4), b64char (a % 4 * 16 + b / 16), b64char (b % 16 * 4), 61]
  | a :: b :: c :: rest =>
    b64char (a / 4) :: b64char (a % 4 * 16 + b / 16) ::
      b64char (b % 16 * 4 + c / 64) :: b64char (c % 64) :: b64encode rest

/-- Decoder for the 4-character quanta of standard base64 (after newline
filtering): input length must be a multiple of 4, characters must be in the
alphabet, `=` padding may appear only as the last one or two characters of
the whole input.  Trailing bits of a padded quantum are ignored, as in Go's
default (non-strict) decoding. -/
def b64decodeQ : GoStr → Except Unit GoStr
  | [] => .ok []
  | a :: b :: c :: d :: rest =>
    match b64inv a, b64inv b with
    | some x, some y =>
      if c = 61 then
        if d = 61 ∧ rest = [] then .ok [x * 4 + y / 16] else .error ()
      else
        match b64inv c with
        | some z =>
          if d = 61 then
            if rest = [] then .ok [x * 4 + y / 16, y % 16 * 16 + z / 4] else .error ()
          else
            match b64inv d with
            | some w =>
              match b64decodeQ rest with
              | .ok tail => .ok ((x * 4 + y / 16) :: (y % 16 * 16 + z / 4) :: (z % 4 * 64 + w) :: tail)
              | .error e => .error e
            | none => .error ()
        | none => .error ()
    | _, _ => .error ()
  | _ => .error ()

/-- Go `base64.StdEncoding.DecodeString`: newline bytes (LF 10 and CR 13) are
ignored, then the input is decoded quantum by quantum. -/
def b64decodeGo (s : GoStr) : Except Unit GoStr :=
  b64decodeQ (s.filter fun c => ¬(c = 10 ∨ c = 13))

/-- The credential-bearing parts of an HTTP request, as the handler reads
them: the `u` and `p` query parameters (Go's `Values.Get` returns `""` for
an absent parameter, so `[]` models absence) and the `Authorization` header
(again `[]` when absent, as `Header.Get` returns `""`). -/
structure Request where
  qu : GoStr
  qp : GoStr
  authHeader : GoStr
deriving DecidableEq

/-- `getUsernameAndPassword` from `handler.go`: credentials from the `u`/`p`
query parameters when both are non-empty, otherwise from the
`Authorization` header (two space-separated tokens, the second standard
base64 whose decoding has exactly two colon-separated fields).  An absent
header yields empty credentials with no error. -/
def getUsernameAndPassword (r : Request) : Except GoStr (GoStr × GoStr) :=
  let username := r.qu
  let password := r.qp
  if username ≠ [] ∧ password ≠ [] then
    .ok (username, password)
  else if r.authHeader = [] then
    .ok ([], [])
  else
    match goSplit r.authHeader 32 with
    | [_, tok] =>
      match b64decodeGo tok with
      | .error _ => .error (asciiBytes "invalid Base64 encoding")
      | .ok bs =>
        match goSplit bs 58 with
        | [f0, f1] => .ok (f0, f1)
        | _ => .error (asciiBytes "invalid Basic Authentication value")
    | _ => .error (asciiBytes "invalid Basic Authentication header")

/-- An authenticated user as the handler reads it (`u.Name`, `u.Admin`);
the rest of the store's `User` record is never inspected here. -/
structure User where
  name : GoStr
  admin : Bool
deriving DecidableEq

/-- The user wire shape `userJSON` (`name`, `password`, `admin`).  A JSON
body in which a field is absent decodes to that field's zero value
(`[]` / `false`), exactly as Go's decoder leaves absent fields. -/
structure userJSON where
  name : GoStr
  password : GoStr
  admin : Bool
deriving DecidableEq

/-- The data-node wire shape `dataNodeJSON` (`id`, `url`). -/
structure dataNodeJSON where
  id : Nat
  url : GoStr
deriving DecidableEq

/-- A parsed URL (`*url.URL`); the handler only ever passes it to the store
and reads back its string form, so it is modelled by that string. -/
structure URLv where
  str : GoStr
deriving DecidableEq

/-- A data node as stored (`ID`, `URL`). -/
structure DataNode where
  id : Nat
  url : URLv
deriving DecidableEq

/-- A retention policy body.  The handler decodes it from JSON and passes it
to the store without inspecting it, so it is modelled as an opaque token. -/
structure RetentionPolicy where
  tok : Nat
deriving DecidableEq

/-- A shard summary, opaque to the handler beyond JSON encoding. -/
structure ShardInfo where
  tok : Nat
deriving DecidableEq

/-- The domain-error sentinels (`ErrUserExists`, `ErrDatabaseNotFound`, ...)
the handlers compare store errors against, plus `other` for any error that
matches no sentinel and is mapped to 500. -/
inductive Err where
  | userExists | userNotFound
  | databaseExists | databaseNotFound
  | databaseNameRequired
  | retentionPolicyExists | retentionPolicyNotFound
  | dataNodeExists | dataNodeNotFound
  | other (msg : GoStr)
deriving DecidableEq

/-- One call into the external authenticator or one store mutation.
Pure store reads (`Databases()`, `Users()`, `AdminUserExists()`, ...) are
fields of `Server` and are not recorded. -/
inductive Call where
  | authUser (username password : GoStr)
  | createUser (name password : GoStr) (admin : Bool)
  | updateUser (name password : GoStr)
  | deleteUser (name : GoStr)
  | createDatabase (name : GoStr)
  | deleteDatabase (name : GoStr)
  | createRetentionPolicy (db : GoStr) (p : RetentionPolicy)
  | updateRetentionPolicy (db name : GoStr) (p : RetentionPolicy)
  | deleteRetentionPolicy (db name : GoStr)
  | createDataNode (u : URLv)
  | deleteDataNode (id : Nat)
deriving DecidableEq

/-- The body a handler writes: nothing, plain error text, or the JSON
encoding of a value (kept symbolically as the value handed to
`json.NewEncoder(w).Encode`). -/
inductive Body where
  | empty
  | text (msg : GoStr)
  | errText (e : Err)
  | jsonUsers (a : List userJSON)
  | jsonDatabases (ds : List GoStr)
  | jsonShards (ss : List ShardInfo)
  | jsonPolicies (ps : List RetentionPolicy)
  | jsonDataNodes (ns : List dataNodeJSON)
  | jsonDataNode (n : dataNodeJSON)
deriving DecidableEq

/-- The HTTP response a handler writes: status code, whether a
`content-type: application/json` header was sent, and the body. -/
structure Response where
  status : Nat
  contentTypeJson : Bool
  body : Body
deriving DecidableEq

/-- `h.error(w, msg, code)` (`http.Error`): plain-text body, no JSON
content type. -/
def errResp (code : Nat) (b : Body) : Response :=
  { status := code, contentTypeJson := false, body := b }

/-- The implicit 200 with empty body a Go handler produces by returning
without writing anything. -/
def ok200 : Response := { status := 200, contentTypeJson := false, body := .empty }

/-- `w.WriteHeader(http.StatusCreated)` with no body. -/
def created : Response := { status := 201, contentTypeJson := false, body := .empty }

/-- `w.WriteHeader(http.StatusNoContent)` with no body. -/
def noContent : Response := { status := 204, contentTypeJson := false, body := .empty }

/-- A 200 response carrying a JSON body and the `content-type` header the
read handlers add before encoding. -/
def okJson (b : Body) : Response :=
  { status := 200, contentTypeJson := true, body := b }

/-- The external resource store and authenticator (`h.server`, implemented
outside this source file), as the record of operations the handlers call.
Mutating operations return `none` on success and `some e` on a domain
error. -/
structure Server where
  adminUserExists : Bool
  authenticatedUser : GoStr → GoStr → Except GoStr User
  users : List User
  databases : List GoStr
  shards : GoStr → Except Err (List ShardInfo)
  retentionPolicies : GoStr → Except Err (List RetentionPolicy)
  dataNodes : List DataNode
  dataNodeByURL : URLv → DataNode
  createUser : GoStr → GoStr → Bool → Option Err
  updateUser : GoStr → GoStr → Option Err
  deleteUser : GoStr → Option Err
  createDatabase : GoStr → Option Err
  deleteDatabase : GoStr → Option Err
  createRetentionPolicy : GoStr → RetentionPolicy → Option Err
  updateRetentionPolicy : GoStr → GoStr → RetentionPolicy → Option Err
  deleteRetentionPolicy : GoStr → GoStr → Option Err
  createDataNode : URLv → Option Err
  deleteDataNode : Nat → Option Err

/-- The handler configuration: `Handler.AuthenticationEnabled`.  (The
`server` field is passed separately; `mux` and `Version` play no part in
the claims.) -/
structure Handler where
  authenticationEnabled : Bool
deriving DecidableEq

/-- `Handler.makeAuthenticationHandler`: when authentication is disabled the
wrapped handler runs with a `none` identity; when enabled, a credential
extraction error or an authenticator failure writes a 401 and the wrapped
handler never runs; on success the wrapped handler runs with the resolved
user. -/
def makeAuthenticationHandler (h : Handler) (s : Server)
    (fn : Request → Option User → Response × List Call) (r : Request) :
    Response × List Call :=
  if h.authenticationEnabled then
    match getUsernameAndPassword r with
    | .error e => (errResp 401 (.text e), [])
    | .ok (username, password) =>
      match s.authenticatedUser username password with
      | .error e => (errResp 401 (.text e), [.authUser username password])
      | .ok u =>
        let (resp, calls) := fn r (some u)
        (resp, .authUser username password :: calls)
  else
    fn r none

/-- `Handler.serveDatabases`: encode `h.server.Databases()` as JSON. -/
def serveDatabases (s : Server) : Response × List Call :=
  (okJson (.jsonDatabases s.databases), [])

/-- `Handler.serveCreateDatabase`.  `body` is the outcome of decoding the
request body as `struct { Name string }`: `.error e` when the decoder
fails, otherwise the decoded name (`[]` when the field is absent). -/
def serveCreateDatabase (s : Server) (body : Except GoStr GoStr) :
    Response × List Call :=
  match body with
  | .error e => (errResp 400 (.text e), [])
  | .ok name =>
    if name = [] then
      (errResp 400 (.errText .databaseNameRequired), [])
    else
      match s.createDatabase name with
      | some .databaseExists => (errResp 409 (.errText .databaseExists), [.createDatabase name])
      | some e => (errResp 500 (.errText e), [.createDatabase name])
      | none => (created, [.createDatabase name])

/-- `Handler.serveDeleteDatabase` for the `:name` path parameter. -/
def serveDeleteDatabase (s : Server) (name : GoStr) : Response × List Call :=
  match s.deleteDatabase name with
  | some .databaseNotFound => (errResp 404 (.errText .databaseNotFound), [.deleteDatabase name])
  | some e => (errResp 500 (.errText e), [.deleteDatabase name])
  | none => (noContent, [.deleteDatabase name])

/-- `Handler.serveUsers`: encode each user as `userJSON` with only `Name`
and `Admin` populated (the password field keeps its zero value). -/
def serveUsers (s : Server) : Response × List Call :=
  (okJson (.jsonUsers (s.users.map fun u => ⟨u.name, [], u.admin⟩)), [])

/-- The tail of `Handler.serveCreateUser` after its authentication policy:
the `h.server.CreateUser` call and the mapping of its outcome.  On success
the Go code returns without writing, so the response is an implicit 200. -/
def createUserCore (s : Server) (newUser : userJSON) : Response × List Call :=
  match s.createUser newUser.name newUser.password newUser.admin with
  | some .userExists =>
    (errResp 409 (.errText .userExists), [.createUser newUser.name newUser.password newUser.admin])
  | some e =>
    (errResp 500 (.errText e), [.createUser newUser.name newUser.password newUser.admin])
  | none => (ok200, [.createUser newUser.name newUser.password newUser.admin])

/-- `Handler.serveCreateUser`.  `body` is the outcome of decoding the
request body as `userJSON`.  The credential check runs iff
`h.AuthenticationEnabled && (h.server.AdminUserExists() || !newUser.Admin)`;
note the decode precedes that check, and that no field of the decoded body
is validated. -/
def serveCreateUser (h : Handler) (s : Server) (r : Request)
    (body : Except GoStr userJSON) : Response × List Call :=
  match body with
  | .error e => (errResp 400 (.text e), [])
  | .ok newUser =>
    if h.authenticationEnabled && (s.adminUserExists || !newUser.admin) then
      match getUsernameAndPassword r with
      | .error e => (errResp 401 (.text e), [])
      | .ok (username, password) =>
        match s.authenticatedUser username password with
        | .error e => (errResp 401 (.text e), [.authUser username password])
        | .ok _ =>
          let (resp, calls) := createUserCore s newUser
          (resp, .authUser username password :: calls)
    else
      createUserCore s newUser

/-- `Handler.serveUpdateUser`.  The Go code declares `var user userJSON`
but decodes the body into `&u` — the authenticated-user parameter — so
`user` keeps its zero value and `h.server.UpdateUser` always receives the
empty password, whatever the body said.  `bodyAsUser` is the outcome of
decoding the body into `*User` (its decoded value is never read again). -/
def serveUpdateUser (s : Server) (pathUser : GoStr)
    (bodyAsUser : Except GoStr Unit) : Response × List Call :=
  match bodyAsUser with
  | .error e => (errResp 400 (.text e), [])
  | .ok _ =>
    let user : userJSON := { name := [], password := [], admin := false }
    match s.updateUser pathUser user.password with
    | some .userNotFound => (errResp 404 (.errText .userNotFound), [.updateUser pathUser user.password])
    | some e => (errResp 500 (.errText e), [.updateUser pathUser user.password])
    | none => (noContent, [.updateUser pathUser user.password])

/-- `Handler.serveDeleteUser` for the `:user` path parameter. -/
def serveDeleteUser (s : Server) (name : GoStr) : Response × List Call :=
  match s.deleteUser name with
  | some .userNotFound => (errResp 404 (.errText .userNotFound), [.deleteUser name])
  | some e => (errResp 500 (.errText e), [.deleteUser name])
  | none => (noContent, [.deleteUser name])

/-- `Handler.serveShards` for the `:db` path parameter. -/
def serveShards (s : Server) (db : GoStr) : Response × List Call :=
  match s.shards db with
  | .error .databaseNotFound => (errResp 404 (.errText .databaseNotFound), [])
  | .error e => (errResp 500 (.errText e), [])
  | .ok shards => (okJson (.jsonShards shards), [])

/-- `Handler.serveDeleteShard`: an empty function body — it writes nothing
(implicit 200, empty body) and never touches the store. -/
def serveDeleteShard (_s : Server) (_db _id : GoStr) : Response × List Call :=
  (ok200, [])

/-- `Handler.serveRetentionPolicies` for the `:db` path parameter. -/
def serveRetentionPolicies (s : Server) (db : GoStr) : Response × List Call :=
  match s.retentionPolicies db with
  | .error .databaseNotFound => (errResp 404 (.errText .databaseNotFound), [])
  | .error e => (errResp 500 (.errText e), [])
  | .ok ps => (okJson (.jsonPolicies ps), [])

/-- `Handler.serveCreateRetentionPolicy`.  `body` is the outcome of
decoding the request body as `RetentionPolicy`. -/
def serveCreateRetentionPolicy (s : Server) (db : GoStr)
    (body : Except GoStr RetentionPolicy) : Response × List Call :=
  match body with
  | .error e => (errResp 400 (.text e), [])
  | .ok policy =>
    match s.createRetentionPolicy db policy with
    | some .databaseNotFound =>
      (errResp 404 (.errText .databaseNotFound), [.createRetentionPolicy db policy])
    | some .retentionPolicyExists =>
      (errResp 409 (.errText .retentionPolicyExists), [.createRetentionPolicy db policy])
    | some e => (errResp 500 (.errText e), [.createRetentionPolicy db policy])
    | none => (created, [.createRetentionPolicy db policy])

/-- `Handler.serveUpdateRetentionPolicy` for the `:db` and `:name` path
parameters. -/
def serveUpdateRetentionPolicy (s : Server) (db name : GoStr)
    (body : Except GoStr RetentionPolicy) : Response × List Call :=
  match body with
  | .error e => (errResp 400 (.text e), [])
  | .ok policy =>
    match s.updateRetentionPolicy db name policy with
    | some e =>
      if e = .databaseNotFound ∨ e = .retentionPolicyNotFound then
        (errResp 404 (.errText e), [.updateRetentionPolicy db name policy])
      else
        (errResp 500 (.errText e), [.updateRetentionPolicy db name policy])
    | none => (noContent, [.updateRetentionPolicy db name policy])

/-- `Handler.serveDeleteRetentionPolicy` for the `:db` and `:name` path
parameters. -/
def serveDeleteRetentionPolicy (s : Server) (db name : GoStr) :
    Response × List Call :=
  match s.deleteRetentionPolicy db name with
  | some e =>
    if e = .databaseNotFound ∨ e = .retentionPolicyNotFound then
      (errResp 404 (.errText e), [.deleteRetentionPolicy db name])
    else
      (errResp 500 (.errText e), [.deleteRetentionPolicy db name])
  | none => (noContent, [.deleteRetentionPolicy db name])

/-- `Handler.serveDataNodes`: encode each node as `dataNodeJSON`. -/
def serveDataNodes (s : Server) : Response × List Call :=
  (okJson (.jsonDataNodes (s.dataNodes.map fun n => ⟨n.id, n.url.str⟩)), [])

/-- `Handler.serveCreateDataNode`.  `urlParse` stands for the external
`url.Parse` (`none` models a parse error); `body` is the outcome of
decoding the request body as `dataNodeJSON`.  On success the source calls
`w.WriteHeader(201)` before `Header().Add("content-type", ...)`, so the
JSON content-type header is never transmitted. -/
def serveCreateDataNode (urlParse : GoStr → Option URLv) (s : Server)
    (body : Except GoStr dataNodeJSON) : Response × List Call :=
  match body with
  | .error e => (errResp 400 (.text e), [])
  | .ok n =>
    match urlParse n.url with
    | none => (errResp 400 (.text (asciiBytes "invalid data node url")), [])
    | some u =>
      match s.createDataNode u with
      | some .dataNodeExists => (errResp 409 (.errText .dataNodeExists), [.createDataNode u])
      | some e => (errResp 500 (.errText e), [.createDataNode u])
      | none =>
        let node := s.dataNodeByURL u
        ({ status := 201, contentTypeJson := false, body := .jsonDataNode ⟨node.id, node.url.str⟩ },
         [.createDataNode u])

/-- Go `strconv.ParseUint(s, 10, 64)`: a non-empty string of decimal
digits whose value fits in 64 bits; anything else is an error. -/
def parseUint10 (s : GoStr) : Option Nat :=
  if s ≠ [] ∧ s.all (fun c => 48 ≤ c ∧ c ≤ 57) then
    let n := s.foldl (fun acc c => acc * 10 + (c - 48)) 0
    if n < 2 ^ 64 then some n else none
  else
    none

/-- `Handler.serveDeleteDataNode` for the `:id` path parameter. -/
def serveDeleteDataNode (s : Server) (idStr : GoStr) : Response × List Call :=
  match parseUint10 idStr with
  | none => (errResp 400 (.text (asciiBytes "invalid node id")), [])
  | some nodeID =>
    match s.deleteDataNode nodeID with
    | some .dataNodeNotFound => (errResp 404 (.errText .dataNodeNotFound), [.deleteDataNode nodeID])
    | some e => (errResp 500 (.errText e), [.deleteDataNode nodeID])
    | none => (noContent, [.deleteDataNode nodeID])

/-- The malformedness condition on an `Authorization` header value: not
exactly two space-separated tokens, or the second token is not valid
standard base64, or the decoded value is not exactly two colon-separated
fields.  (This is the condition C7 quantifies over; the handlers never
compute it as such.) -/
def malformedBasicAuth (a : GoStr) : Bool :=
  match goSplit a 32 with
  | [_, tok] =>
    match b64decodeGo tok with
    | .error _ => true
    | .ok bs =>
      match goSplit bs 58 with
      | [_, _] => false
      | _ => true
  | _ => true

/-- A Basic Authentication header carrying the pair `(u, p)`: the scheme
token, a space, and the standard base64 encoding of `u ++ ":" ++ p`. -/
def basicAuthHeader (u p : GoStr) : GoStr :=
  asciiBytes "Basic " ++ b64encode (u ++ 58 :: p)

/-! ### Concrete fixtures used by witnesses and counterexamples -/

/-- A request with no query credentials and no `Authorization` header. -/
def req0 : Request := { qu := [], qp := [], authHeader := [] }

/-- A handler with authentication enabled. -/
def cfgOn : Handler := { authenticationEnabled := true }

/-- A handler with authentication disabled. -/
def cfgOff : Handler := { authenticationEnabled := false }

def rootUser : User := { name := asciiBytes "root", admin := true }

/-- A store with no admin yet, in which every operation succeeds, the
authenticator accepts, and no shard or policy exists. -/
def srvOk : Server where
  adminUserExists := false
  authenticatedUser := fun _ _ => .ok rootUser
  users := [rootUser]
  databases := [asciiBytes "metrics"]
  shards := fun _ => .ok []
  retentionPolicies := fun _ => .ok []
  dataNodes := []
  dataNodeByURL := fun u => { id := 1, url := u }
  createUser := fun _ _ _ => none
  updateUser := fun _ _ => none
  deleteUser := fun _ => none
  createDatabase := fun _ => none
  deleteDatabase := fun _ => none
  createRetentionPolicy := fun _ _ => none
  updateRetentionPolicy := fun _ _ _ => none
  deleteRetentionPolicy := fun _ _ => none
  createDataNode := fun _ => none
  deleteDataNode := fun _ => none

/-- A store that already has an admin and whose authenticator rejects every
credential pair. -/
def srvAdminReject : Server :=
  { srvOk with
    adminUserExists := true
    authenticatedUser := fun _ _ => .error (asciiBytes "invalid credentials") }

/-- A store in which every delete reports its not-found sentinel. -/
def srvMissing : Server :=
  { srvOk with
    deleteUser := fun _ => some .userNotFound
    deleteDatabase := fun _ => some .databaseNotFound
    deleteRetentionPolicy := fun _ _ => some .retentionPolicyNotFound
    deleteDataNode := fun _ => some .dataNodeNotFound }

/-- The admin-flagged user body used to bootstrap a fresh cluster. -/
def bootAdmin : userJSON :=
  { name := asciiBytes "root", password := asciiBytes "secret", admin := true }

/-! ### Lemmas about the base64 model and `goSplit` -/

theorem b64inv_b64char : ∀ n < 64, b64inv (b64char n) = some n := by decide

theorem b64char_ge43 (n : Nat) : 43 ≤ b64char n := by
  unfold b64char
  repeat' split
  all_goals omega

theorem b64char_ne61 (n : Nat) : b64char n ≠ 61 := by
  unfold b64char
  repeat' split
  all_goals omega

theorem mem_b64encode_ge43 : ∀ l : GoStr, ∀ c ∈ b64encode l, 43 ≤ c := by
  intro l
  induction l using b64encode.induct with
  | case1 => intro c hc; simp [b64encode] at hc
  | case2 a =>
    intro c hc
    simp only [b64encode, List.mem_cons, List.mem_singleton] at hc
    rcases hc with h | h | h | h | h
    all_goals first
      | (subst h; exact b64char_ge43 _)
      | (subst h; omega)
      | simp at h
  | case3 a b =>
    intro c hc
    simp only [b64encode, List.mem_cons, List.mem_singleton] at hc
    rcases hc with h | h | h | h | h
    all_goals first
      | (subst h; exact b64char_ge43 _)
      | (subst h; omega)
      | simp at h
  | case4 a b cc rest ih =>
    intro c hc
    simp only [b64encode, List.mem_cons] at hc
    rcases hc with h | h | h | h | h
    · subst h; exact b64char_ge43 _
    · subst h; exact b64char_ge43 _
    · subst h; exact b64char_ge43 _
    · subst h; exact b64char_ge43 _
    · exact ih c h

theorem filter_b64encode (l : GoStr) :
    (b64encode l).filter (fun c => ¬(c = 10 ∨ c = 13)) = b64encode l := by
  apply List.filter_eq_self.mpr
  intro c hc
  have h := mem_b64encode_ge43 l c hc
  simp only [decide_eq_true_eq]
  omega

theorem b64decodeQ_quad (x y z w : Nat) (hx : x < 64) (hy : y < 64)
    (hz : z < 64) (hw : w < 64) (rest : GoStr) :
    b64decodeQ (b64char x :: b64char y :: b64char z :: b64char w :: rest) =
      match b64decodeQ rest with
      | .ok tail => .ok ((x * 4 + y / 16) :: (y % 16 * 16 + z / 4) :: (z % 4 * 64 + w) :: tail)
      | .error e => .error e := by
  simp only [b64decodeQ, b64inv_b64char x hx, b64inv_b64char y hy,
    b64inv_b64char z hz, b64inv_b64char w hw, b64char_ne61 z, b64char_ne61 w,
    if_false, ite_false]

theorem b64_roundtripQ : ∀ l : GoStr, (∀ b ∈ l, b < 256) →
    b64decodeQ (b64encode l) = .ok l := by
  intro l
  induction l using b64encode.induct with
  | case1 => intro _; rfl
  | case2 a =>
    intro hb
    have ha : a < 256 := hb a (by simp)
    show b64decodeQ [b64char (a / 4), b64char (a % 4 * 16), 61, 61] = .ok [a]
    simp only [b64decodeQ, b64inv_b64char (a / 4) (by omega),
      b64inv_b64char (a % 4 * 16) (by omega)]
    simp only [if_pos rfl, and_self, ite_true, Except.ok.injEq, List.cons.injEq, and_true]
    omega
  | case3 a b =>
    intro hb
    have ha : a < 256 := hb a (by simp)
    have hb2 : b < 256 := hb b (by simp)
    show b64decodeQ
        [b64char (a / 4), b64char (a % 4 * 16 + b / 16), b64char (b % 16 * 4), 61] = .ok [a, b]
    simp only [b64decodeQ, b64inv_b64char (a / 4) (by omega),
      b64inv_b64char (a % 4 * 16 + b / 16) (by omega),
      b64inv_b64char (b % 16 * 4) (by omega), b64char_ne61 (b % 16 * 4)]
    simp only [if_false, ite_false, if_pos rfl, ite_true, Except.ok.injEq, List.cons.injEq,
      and_true]
    constructor
    · omega
    · omega
  | case4 a b c rest ih =>
    intro hb
    have ha : a < 256 := hb a (by simp)
    have hb2 : b < 256 := hb b (by simp)
    have hc : c < 256 := hb c (by simp)
    have hrest : ∀ x ∈ rest, x < 256 := by
      intro x hx; exact hb x (by simp [hx])
    show b64decodeQ (b64char (a / 4) :: b64char (a % 4 * 16 + b / 16) ::
        b64char (b % 16 * 4 + c / 64) :: b64char (c % 64) :: b64encode rest) =
      .ok (a :: b :: c :: rest)
    rw [b64decodeQ_quad (a / 4) (a % 4 * 16 + b / 16) (b % 16 * 4 + c / 64) (c % 64)
      (by omega) (by omega) (by omega) (by omega) (b64encode rest)]
    rw [ih hrest]
    simp only [Except.ok.injEq, List.cons.injEq, and_true]
    refine ⟨by omega, by omega, by omega⟩

theorem b64_roundtrip (l : GoStr) (hl : ∀ b ∈ l, b < 256) :
    b64decodeGo (b64encode l) = .ok l := by
  unfold b64decodeGo
  rw [filter_b64encode, b64_roundtripQ l hl]

theorem goSplit_not_mem (ys : GoStr) (sep : Nat) (h : sep ∉ ys) :
    goSplit ys sep = [ys] := by
  induction ys with
  | nil => rfl
  | cons c rest ih =>
    have hc : ¬(c = sep) := by
      intro hcs; exact h (hcs ▸ List.mem_cons_self c rest)
    have hr : sep ∉ rest := fun hm => h (List.mem_cons_of_mem _ hm)
    simp [goSplit, ih hr, hc]

theorem goSplit_append_single (xs ys : GoStr) (sep : Nat)
    (hx : sep ∉ xs) (hy : sep ∉ ys) :
    goSplit (xs ++ sep :: ys) sep = [xs, ys] := by
  induction xs with
  | nil =>
    simp only [List.nil_append, goSplit, goSplit_not_mem ys sep hy]
    simp
  | cons c rest ih =>
    have hc : ¬(c = sep) := by
      intro hcs; exact hx (hcs ▸ List.mem_cons_self c rest)
    have hr : sep ∉ rest := fun hm => hx (List.mem_cons_of_mem _ hm)
    show goSplit (c :: (rest ++ sep :: ys)) sep = [c :: rest, ys]
    unfold goSplit
    rw [ih hr]
    simp [hc]

/-! ### Helper lemmas about `serveCreateUser` -/

theorem createUserCore_calls (s : Server) (nu : userJSON) :
    (createUserCore s nu).2 = [.createUser nu.name nu.password nu.admin] := by
  unfold createUserCore
  split
  · rfl
  · rfl
  · rfl

theorem createUserCore_status_ne_401 (s : Server) (nu : userJSON) :
    (createUserCore s nu).1.status ≠ 401 := by
  unfold createUserCore
  split
  · simp [errResp]
  · simp [errResp]
  · simp [ok200]

/-- Evaluation of `serveCreateUser` when its credential-check condition
holds. -/
theorem serveCreateUser_checked (h : Handler) (s : Server) (r : Request) (nu : userJSON)
    (hcond : (h.authenticationEnabled && (s.adminUserExists || !nu.admin)) = true) :
    serveCreateUser h s r (.ok nu) =
      match getUsernameAndPassword r with
      | .error e => (errResp 401 (.text e), [])
      | .ok (u, p) =>
        match s.authenticatedUser u p with
        | .error e => (errResp 401 (.text e), [.authUser u p])
        | .ok _ => ((createUserCore s nu).1, .authUser u p :: (createUserCore s nu).2) := by
  unfold serveCreateUser
  simp only [hcond, if_true]

/-- Evaluation of checked `serveCreateUser` when credential extraction
fails. -/
theorem serveCreateUser_extractErr (h : Handler) (s : Server) (r : Request)
    (nu : userJSON)
    (hcond : (h.authenticationEnabled && (s.adminUserExists || !nu.admin)) = true)
    (e : GoStr) (hg : getUsernameAndPassword r = .error e) :
    serveCreateUser h s r (.ok nu) = (errResp 401 (.text e), []) := by
  rw [serveCreateUser_checked h s r nu hcond, hg]

/-- Evaluation of checked `serveCreateUser` when the authenticator
rejects. -/
theorem serveCreateUser_authErr (h : Handler) (s : Server) (r : Request)
    (nu : userJSON)
    (hcond : (h.authenticationEnabled && (s.adminUserExists || !nu.admin)) = true)
    (u p e : GoStr) (hg : getUsernameAndPassword r = .ok (u, p))
    (ha : s.authenticatedUser u p = .error e) :
    serveCreateUser h s r (.ok nu) = (errResp 401 (.text e), [.authUser u p]) := by
  rw [serveCreateUser_checked h s r nu hcond, hg]
  simp [ha]

/-- Evaluation of checked `serveCreateUser` when the authenticator
accepts. -/
theorem serveCreateUser_authOk (h : Handler) (s : Server) (r : Request)
    (nu : userJSON)
    (hcond : (h.authenticationEnabled && (s.adminUserExists || !nu.admin)) = true)
    (u p : GoStr) (usr : User) (hg : getUsernameAndPassword r = .ok (u, p))
    (ha : s.authenticatedUser u p = .ok usr) :
    serveCreateUser h s r (.ok nu) =
      ((createUserCore s nu).1, .authUser u p :: (createUserCore s nu).2) := by
  rw [serveCreateUser_checked h s r nu hcond, hg]
  simp [ha]

/-! ### Claim theorems -/

/-- C2: for every handler wrapped by `makeAuthenticationHandler`: with the
enablement flag false the wrapped handler runs with a `none` identity and no
credential extraction or authenticator call occurs (the result is exactly
the wrapped handler's, with an empty gate trace); with the flag true, an
extraction error or an authenticator failure writes a 401 and the wrapped
handler never runs (the result does not depend on `fn`), and on
authenticator success the wrapped handler runs with the resolved identity. -/
theorem C2_authentication_gate (h : Handler) (s : Server)
    (fn : Request → Option User → Response × List Call) (r : Request) :
    (h.authenticationEnabled = false → makeAuthenticationHandler h s fn r = fn r none)
  ∧ (h.authenticationEnabled = true →
      (∀ e, getUsernameAndPassword r = .error e →
        makeAuthenticationHandler h s fn r = (errResp 401 (.text e), []))
    ∧ (∀ u p e, getUsernameAndPassword r = .ok (u, p) →
        s.authenticatedUser u p = .error e →
        makeAuthenticationHandler h s fn r = (errResp 401 (.text e), [.authUser u p]))
    ∧ (∀ u p usr, getUsernameAndPassword r = .ok (u, p) →
        s.authenticatedUser u p = .ok usr →
        makeAuthenticationHandler h s fn r =
          ((fn r (some usr)).1, .authUser u p :: (fn r (some usr)).2))) := by
  refine ⟨fun hoff => ?_, fun hon => ⟨?_, ?_, ?_⟩⟩
  · simp [makeAuthenticationHandler, hoff]
  · intro e he
    simp [makeAuthenticationHandler, hon, he]
  · intro u p e hg ha
    simp [makeAuthenticationHandler, hon, hg, ha]
  · intro u p usr hg ha
    rcases hfn : fn r (some usr) with ⟨resp, calls⟩
    simp [makeAuthenticationHandler, hon, hg, ha, hfn]

/-- Witness for C2, at a disabled gate and at an enabled gate whose
authenticator rejects. -/
theorem C2_authentication_gate_witness :
    makeAuthenticationHandler cfgOff srvOk (fun _ _ => (ok200, [])) req0 = (ok200, [])
  ∧ makeAuthenticationHandler cfgOn srvAdminReject (fun _ _ => (ok200, [])) req0 =
      (errResp 401 (.text (asciiBytes "invalid credentials")), [.authUser [] []]) := by
  constructor
  · exact (C2_authentication_gate cfgOff srvOk (fun _ _ => (ok200, [])) req0).1 rfl
  · exact ((C2_authentication_gate cfgOn srvAdminReject (fun _ _ => (ok200, [])) req0).2
      rfl).2.1 [] [] (asciiBytes "invalid credentials") rfl rfl

/-- C9: when exactly one of the `u`/`p` query parameters is non-empty and no
`Authorization` header is present, the extractor returns empty credentials
with no error (partial query credentials are silently ignored). -/
theorem C9_partial_query_credentials (r : Request)
    (h1 : (r.qu ≠ [] ∧ r.qp = []) ∨ (r.qu = [] ∧ r.qp ≠ []))
    (h2 : r.authHeader = []) :
    getUsernameAndPassword r = .ok ([], []) := by
  have hq : ¬(r.qu ≠ [] ∧ r.qp ≠ []) := by
    rcases h1 with ⟨_, hb⟩ | ⟨hb, _⟩ <;> simp [hb]
  unfold getUsernameAndPassword
  simp only [if_neg hq, if_pos h2]

/-- Witness for C9: `u=root` given, `p` absent, no header. -/
theorem C9_partial_query_credentials_witness :
    getUsernameAndPassword { qu := asciiBytes "root", qp := [], authHeader := [] } =
      .ok ([], []) :=
  C9_partial_query_credentials _ (Or.inl ⟨by decide, rfl⟩) rfl

/-- C10: a `POST /users` body that fails to decode yields a 400 with no
authenticator call and no store call, for every configuration — in
particular even with authentication enabled and no credentials supplied:
body decoding precedes the create-user authentication policy, and the
result does not depend on the request's credentials at all. -/
theorem C10_create_user_decode_before_auth (h : Handler) (s : Server) (r : Request)
    (e : GoStr) :
    serveCreateUser h s r (.error e) = (errResp 400 (.text e), []) := rfl

/-- C1 (read, as the spec's bootstrap rule does, over configurations with
authentication globally enabled): the create-user credential check is
skipped — the handler behaves exactly as unchecked creation
(`createUserCore`) — iff no administrator exists and the decoded user is
flagged admin; in every other combination, an extraction error or an
authenticator failure yields a 401 and the store's create-user operation is
never invoked.  (With authentication disabled no route performs a
credential check, so there is no check to skip.) -/
theorem C1_create_user_bootstrap (h : Handler) (s : Server) (r : Request)
    (nu : userJSON) (he : h.authenticationEnabled = true) :
    (serveCreateUser h s r (.ok nu) = createUserCore s nu ↔
      (s.adminUserExists = false ∧ nu.admin = true))
  ∧ ((s.adminUserExists = true ∨ nu.admin = false) →
      (∀ e, getUsernameAndPassword r = .error e →
        (serveCreateUser h s r (.ok nu)).1.status = 401 ∧
        ∀ n pw a, Call.createUser n pw a ∉ (serveCreateUser h s r (.ok nu)).2)
    ∧ (∀ u p e, getUsernameAndPassword r = .ok (u, p) →
        s.authenticatedUser u p = .error e →
        (serveCreateUser h s r (.ok nu)).1.status = 401 ∧
        ∀ n pw a, Call.createUser n pw a ∉ (serveCreateUser h s r (.ok nu)).2)) := by
  constructor
  · constructor
    · intro heq
      by_contra hcon
      have hcond : (h.authenticationEnabled && (s.adminUserExists || !nu.admin)) = true := by
        rw [he]
        cases hadm : s.adminUserExists with
        | true => rfl
        | false =>
          cases hflag : nu.admin with
          | true => exact absurd ⟨hadm, hflag⟩ hcon
          | false => rfl
      cases hg : getUsernameAndPassword r with
      | error e =>
        have h2 := serveCreateUser_extractErr h s r nu hcond e hg
        rw [heq] at h2
        have h3 := congrArg Prod.snd h2
        rw [createUserCore_calls] at h3
        exact List.noConfusion h3
      | ok up =>
        obtain ⟨u, p⟩ := up
        cases ha : s.authenticatedUser u p with
        | error e =>
          have h2 := serveCreateUser_authErr h s r nu hcond u p e hg ha
          rw [heq] at h2
          have h3 := congrArg (fun x => Response.status (Prod.fst x)) h2
          exact createUserCore_status_ne_401 s nu h3
        | ok usr =>
          have h2 := serveCreateUser_authOk h s r nu hcond u p usr hg ha
          rw [heq] at h2
          have h3 := congrArg (fun x => List.length (Prod.snd x)) h2
          simp only [List.length_cons] at h3
          omega
    · rintro ⟨hadm, hflag⟩
      have hcond : (h.authenticationEnabled && (s.adminUserExists || !nu.admin)) = false := by
        rw [he, hadm, hflag]
        rfl
      unfold serveCreateUser
      simp [hcond]
  · intro hor
    have hcond : (h.authenticationEnabled && (s.adminUserExists || !nu.admin)) = true := by
      rw [he]
      rcases hor with h2 | h2 <;> rw [h2] <;> simp
    constructor
    · intro e hg
      rw [serveCreateUser_extractErr h s r nu hcond e hg]
      exact ⟨rfl, by intro n pw a; simp⟩
    · intro u p e hg ha
      rw [serveCreateUser_authErr h s r nu hcond u p e hg ha]
      refine ⟨rfl, ?_⟩
      intro n pw a
      simp

/-- Witness for C1: with auth enabled and no admin, an admin-flagged body
creates without credentials; with an admin present and failing credentials,
the same request draws a 401. -/
theorem C1_create_user_bootstrap_witness :
    serveCreateUser cfgOn srvOk req0 (.ok bootAdmin) = createUserCore srvOk bootAdmin
  ∧ (serveCreateUser cfgOn srvAdminReject req0 (.ok bootAdmin)).1.status = 401 := by
  constructor
  · exact (C1_create_user_bootstrap cfgOn srvOk req0 bootAdmin rfl).1.mpr ⟨rfl, rfl⟩
  · exact (((C1_create_user_bootstrap cfgOn srvAdminReject req0 bootAdmin rfl).2
      (Or.inl rfl)).2 [] [] (asciiBytes "invalid credentials") rfl rfl).1

/-- C7: with authentication enabled, a request whose `Authorization` header
is present but malformed (wrong token count, invalid base64, or a decoded
value without exactly two colon-separated fields) and without both query
credentials makes the extractor fail, and the gate answers 401 — never
500. -/
theorem C7_malformed_header_401 (h : Handler) (s : Server)
    (fn : Request → Option User → Response × List Call) (r : Request)
    (he : h.authenticationEnabled = true)
    (hq : ¬(r.qu ≠ [] ∧ r.qp ≠ []))
    (ha : r.authHeader ≠ [])
    (hm : malformedBasicAuth r.authHeader = true) :
    (∃ e, getUsernameAndPassword r = .error e)
  ∧ (makeAuthenticationHandler h s fn r).1.status = 401
  ∧ (makeAuthenticationHandler h s fn r).1.status ≠ 500 := by
  have herr : ∃ e, getUsernameAndPassword r = .error e := by
    unfold getUsernameAndPassword
    rw [if_neg hq, if_neg ha]
    unfold malformedBasicAuth at hm
    rcases hsp : goSplit r.authHeader 32 with _ | ⟨t0, _ | ⟨t1, _ | ⟨t2, rest⟩⟩⟩
    · exact ⟨_, rfl⟩
    · exact ⟨_, rfl⟩
    · rw [hsp] at hm
      cases hdec : b64decodeGo t1 with
      | error e => simp [hdec]
      | ok bs =>
        simp only [hdec] at hm
        rcases hsp2 : goSplit bs 58 with _ | ⟨f0, _ | ⟨f1, _ | ⟨f2, rest2⟩⟩⟩
        · simp [hdec, hsp2]
        · simp [hdec, hsp2]
        · rw [hsp2] at hm
          exact absurd hm (by simp)
        · simp [hdec, hsp2]
    · exact ⟨_, rfl⟩
  obtain ⟨e, he2⟩ := herr
  refine ⟨⟨e, he2⟩, ?_, ?_⟩
  · simp [makeAuthenticationHandler, he, he2, errResp]
  · simp [makeAuthenticationHandler, he, he2, errResp]

/-- Witness for C7: header `Basic !!!` (invalid base64). -/
theorem C7_malformed_header_401_witness :
    (∃ e, getUsernameAndPassword
        { qu := [], qp := [], authHeader := asciiBytes "Basic !!!" } = .error e)
  ∧ (makeAuthenticationHandler cfgOn srvOk (fun _ _ => (ok200, []))
        { qu := [], qp := [], authHeader := asciiBytes "Basic !!!" }).1.status = 401 := by
  have h2 := C7_malformed_header_401 cfgOn srvOk (fun _ _ => (ok200, []))
    { qu := [], qp := [], authHeader := asciiBytes "Basic !!!" }
    rfl (by decide) (by decide) (by decide)
  exact ⟨h2.1, h2.2.1⟩

/-- C8: a well-formed Basic Authentication header carrying the pair
`(u, p)` — scheme token, space, base64 of `u ++ ":" ++ p`, with `u` and `p`
byte strings free of the colon so that the decoded value has exactly two
colon-separated fields — round-trips exactly through the extractor when
query-parameter credentials are not both present. -/
theorem C8_basic_auth_roundtrip (u p : GoStr) (r : Request)
    (hu256 : ∀ b ∈ u, b < 256) (hp256 : ∀ b ∈ p, b < 256)
    (hu58 : 58 ∉ u) (hp58 : 58 ∉ p)
    (hq : ¬(r.qu ≠ [] ∧ r.qp ≠ []))
    (hh : r.authHeader = basicAuthHeader u p) :
    getUsernameAndPassword r = .ok (u, p) := by
  have hbytes : ∀ b ∈ u ++ 58 :: p, b < 256 := by
    intro b hb
    rcases List.mem_append.mp hb with h1 | h1
    · exact hu256 b h1
    · rcases List.mem_cons.mp h1 with h2 | h2
      · omega
      · exact hp256 b h2
  have hspace : (32 : Nat) ∉ b64encode (u ++ 58 :: p) := by
    intro hmem
    have := mem_b64encode_ge43 _ _ hmem
    omega
  have hpre : asciiBytes "Basic " = asciiBytes "Basic" ++ [32] := by decide
  have hsplit : goSplit (basicAuthHeader u p) 32 =
      [asciiBytes "Basic", b64encode (u ++ 58 :: p)] := by
    unfold basicAuthHeader
    rw [hpre, List.append_assoc, List.singleton_append]
    exact goSplit_append_single _ _ 32 (by decide) hspace
  have hne : basicAuthHeader u p ≠ [] := by
    unfold basicAuthHeader
    rw [hpre]
    simp
  unfold getUsernameAndPassword
  rw [if_neg hq, hh, if_neg hne, hsplit]
  simp [b64_roundtrip _ hbytes, goSplit_append_single u p 58 hu58 hp58]

/-- Witness for C8: the pair (`bob`, `pw`). -/
theorem C8_basic_auth_roundtrip_witness :
    getUsernameAndPassword
        { qu := [], qp := [],
          authHeader := basicAuthHeader (asciiBytes "bob") (asciiBytes "pw") } =
      .ok (asciiBytes "bob", asciiBytes "pw") :=
  C8_basic_auth_roundtrip (asciiBytes "bob") (asciiBytes "pw") _
    (by decide) (by decide) (by decide) (by decide) (by decide) rfl

/-- Counterexample to C3: `serveDeleteShard` has an empty body, so deleting
a shard that does not exist (the fixture store has no shards at all:
`srvOk.shards` is constantly `.ok []`) answers the implicit 200 with no
store call — not the 404 the claim asserts for every resource kind. -/
theorem C3_delete_shard_counterexample :
    serveDeleteShard srvOk (asciiBytes "db0") (asciiBytes "1") = (ok200, [])
  ∧ (serveDeleteShard srvOk (asciiBytes "db0") (asciiBytes "1")).1.status ≠ 404 := by
  constructor
  · rfl
  · decide

/-- C3 as amended: for database, user, retention policy and data node, a
delete for which the store reports its not-found sentinel answers 404;
shard deletion, however, is an unimplemented no-op that answers 200 and
never consults the store. -/
theorem C3_delete_missing_404 (s : Server) :
    (∀ name, s.deleteDatabase name = some .databaseNotFound →
      (serveDeleteDatabase s name).1.status = 404)
  ∧ (∀ name, s.deleteUser name = some .userNotFound →
      (serveDeleteUser s name).1.status = 404)
  ∧ (∀ db name e, s.deleteRetentionPolicy db name = some e →
      (e = .databaseNotFound ∨ e = .retentionPolicyNotFound) →
      (serveDeleteRetentionPolicy s db name).1.status = 404)
  ∧ (∀ idStr n, parseUint10 idStr = some n →
      s.deleteDataNode n = some .dataNodeNotFound →
      (serveDeleteDataNode s idStr).1.status = 404)
  ∧ (∀ db id2, serveDeleteShard s db id2 = (ok200, [])) := by
  refine ⟨?_, ?_, ?_, ?_, fun _ _ => rfl⟩
  · intro name hdel
    simp [serveDeleteDatabase, hdel, errResp]
  · intro name hdel
    simp [serveDeleteUser, hdel, errResp]
  · intro db name e hdel hor
    simp [serveDeleteRetentionPolicy, hdel, hor, errResp]
  · intro idStr n hid hdel
    simp [serveDeleteDataNode, hid, hdel, errResp]

/-- Witness for the amended C3 at the store whose deletes all report
not-found. -/
theorem C3_delete_missing_404_witness :
    (serveDeleteDatabase srvMissing (asciiBytes "db0")).1.status = 404
  ∧ (serveDeleteUser srvMissing (asciiBytes "bob")).1.status = 404
  ∧ (serveDeleteRetentionPolicy srvMissing (asciiBytes "db0") (asciiBytes "rp0")).1.status = 404
  ∧ (serveDeleteDataNode srvMissing (asciiBytes "7")).1.status = 404
  ∧ serveDeleteShard srvMissing (asciiBytes "db0") (asciiBytes "1") = (ok200, []) := by
  refine ⟨?_, ?_, ?_, ?_, ?_⟩
  · exact (C3_delete_missing_404 srvMissing).1 (asciiBytes "db0") rfl
  · exact (C3_delete_missing_404 srvMissing).2.1 (asciiBytes "bob") rfl
  · exact (C3_delete_missing_404 srvMissing).2.2.1 (asciiBytes "db0") (asciiBytes "rp0")
      .retentionPolicyNotFound rfl (Or.inr rfl)
  · exact (C3_delete_missing_404 srvMissing).2.2.2.1 (asciiBytes "7") 7 (by decide) rfl
  · exact (C3_delete_missing_404 srvMissing).2.2.2.2 (asciiBytes "db0") (asciiBytes "1")

/-- C4 is a code bug: `serveUpdateUser` declares `var user userJSON` but
decodes the body into `&u` — the authenticated-user pointer — so the
decoded password never reaches the store.  At the failing input
`PUT /users/alice` with body `{"password":"secret"}` (which decodes
successfully), the store's update receives the empty password: the call
list is exactly `[updateUser "alice" ""]`, and in particular it is not
`[updateUser "alice" "secret"]` as the claim requires. -/
theorem C4_update_user_password_dropped :
    serveUpdateUser srvOk (asciiBytes "alice") (.ok ()) =
      (noContent, [Call.updateUser (asciiBytes "alice") []])
  ∧ (serveUpdateUser srvOk (asciiBytes "alice") (.ok ())).2 ≠
      [Call.updateUser (asciiBytes "alice") (asciiBytes "secret")] := by
  constructor
  · rfl
  · decide

/-- Counterexample to C5: `serveCreateUser` validates no field.  A body
`{}` decodes to the zero-valued user (empty name, empty password, admin
false) — i.e. every required field is missing — yet the response is not
400 and the store's create-user operation is invoked with those zero
values. -/
theorem C5_create_user_no_validation_counterexample :
    (serveCreateUser cfgOff srvOk req0
        (.ok { name := [], password := [], admin := false })).1.status ≠ 400
  ∧ (serveCreateUser cfgOff srvOk req0
        (.ok { name := [], password := [], admin := false })).2 =
      [Call.createUser [] [] false] := by
  constructor
  · decide
  · rfl

/-- C5 as amended: every create handler answers 400 with no store call when
its body fails to decode; create-database additionally rejects a missing
(empty) name and create-data-node a URL on which the URL parser fails; but
create-user validates nothing — any decoded body goes straight to the
store's create-user call (shown with authentication disabled, where no
credential check intervenes). -/
theorem C5_create_validation (s : Server) :
    (∀ e, serveCreateDatabase s (.error e) = (errResp 400 (.text e), []))
  ∧ (serveCreateDatabase s (.ok []) =
      (errResp 400 (.errText .databaseNameRequired), []))
  ∧ (∀ h r e, serveCreateUser h s r (.error e) = (errResp 400 (.text e), []))
  ∧ (∀ h r nu, h.authenticationEnabled = false →
      serveCreateUser h s r (.ok nu) = createUserCore s nu)
  ∧ (∀ db e, serveCreateRetentionPolicy s db (.error e) = (errResp 400 (.text e), []))
  ∧ (∀ urlParse e, serveCreateDataNode urlParse s (.error e) =
      (errResp 400 (.text e), []))
  ∧ (∀ urlParse n, urlParse n.url = none →
      serveCreateDataNode urlParse s (.ok n) =
        (errResp 400 (.text (asciiBytes "invalid data node url")), [])) := by
  refine ⟨fun e => rfl, rfl, fun h r e => rfl, ?_, fun db e => rfl, fun up e => rfl, ?_⟩
  · intro h r nu hoff
    unfold serveCreateUser
    simp [hoff]
  · intro up n hparse
    unfold serveCreateDataNode
    simp [hparse]

/-- Witness for the amended C5, one instance per conjunct. -/
theorem C5_create_validation_witness :
    serveCreateDatabase srvOk (.error (asciiBytes "bad json")) =
      (errResp 400 (.text (asciiBytes "bad json")), [])
  ∧ serveCreateDatabase srvOk (.ok []) =
      (errResp 400 (.errText .databaseNameRequired), [])
  ∧ serveCreateUser cfgOn srvOk req0 (.error (asciiBytes "bad json")) =
      (errResp 400 (.text (asciiBytes "bad json")), [])
  ∧ serveCreateUser cfgOff srvOk req0 (.ok bootAdmin) = createUserCore srvOk bootAdmin
  ∧ serveCreateRetentionPolicy srvOk (asciiBytes "db0") (.error (asciiBytes "bad json")) =
      (errResp 400 (.text (asciiBytes "bad json")), [])
  ∧ serveCreateDataNode (fun _ => none) srvOk (.error (asciiBytes "bad json")) =
      (errResp 400 (.text (asciiBytes "bad json")), [])
  ∧ serveCreateDataNode (fun _ => none) srvOk (.ok { id := 0, url := [] }) =
      (errResp 400 (.text (asciiBytes "invalid data node url")), []) := by
  obtain ⟨c1, c2, c3, c4, c5, c6, c7⟩ := C5_create_validation srvOk
  exact ⟨c1 _, c2, c3 cfgOn req0 _, c4 cfgOff req0 bootAdmin rfl, c5 _ _, c6 _ _,
    c7 (fun _ => none) { id := 0, url := [] } rfl⟩

/-- Counterexample to C6: on store success, user creation answers the
implicit 200 (the source never writes a 201 for it), so "201 for creation"
fails for users. -/
theorem C6_create_user_status_counterexample :
    (serveCreateUser cfgOff srvOk req0 (.ok bootAdmin)).1.status = 200
  ∧ (serveCreateUser cfgOff srvOk req0 (.ok bootAdmin)).1.status ≠ 201 := by
  constructor
  · rfl
  · decide

/-- C6 as amended: on success of the store call, creation answers 201 for
database, retention policy and data node but 200 for user (the source
writes no status there); deletion and update answer 204 with no body;
reads answer 200 with a `content-type: application/json` header and a JSON
body. -/
theorem C6_success_statuses (s : Server) :
    (∀ name, name ≠ ([] : GoStr) → s.createDatabase name = none →
      (serveCreateDatabase s (.ok name)).1 = created)
  ∧ (∀ db p, s.createRetentionPolicy db p = none →
      (serveCreateRetentionPolicy s db (.ok p)).1 = created)
  ∧ (∀ urlParse n u, urlParse n.url = some u → s.createDataNode u = none →
      (serveCreateDataNode urlParse s (.ok n)).1.status = 201)
  ∧ (∀ h r nu, h.authenticationEnabled = false →
      s.createUser nu.name nu.password nu.admin = none →
      (serveCreateUser h s r (.ok nu)).1 = ok200)
  ∧ (∀ name, s.deleteDatabase name = none → (serveDeleteDatabase s name).1 = noContent)
  ∧ (∀ name, s.deleteUser name = none → (serveDeleteUser s name).1 = noContent)
  ∧ (∀ db name, s.deleteRetentionPolicy db name = none →
      (serveDeleteRetentionPolicy s db name).1 = noContent)
  ∧ (∀ idStr n, parseUint10 idStr = some n → s.deleteDataNode n = none →
      (serveDeleteDataNode s idStr).1 = noContent)
  ∧ (∀ name, s.updateUser name [] = none →
      (serveUpdateUser s name (.ok ())).1 = noContent)
  ∧ (∀ db name p, s.updateRetentionPolicy db name p = none →
      (serveUpdateRetentionPolicy s db name (.ok p)).1 = noContent)
  ∧ ((serveDatabases s).1 = okJson (.jsonDatabases s.databases))
  ∧ ((serveUsers s).1 = okJson (.jsonUsers (s.users.map fun u => ⟨u.name, [], u.admin⟩)))
  ∧ (∀ db l, s.shards db = .ok l → (serveShards s db).1 = okJson (.jsonShards l))
  ∧ (∀ db l, s.retentionPolicies db = .ok l →
      (serveRetentionPolicies s db).1 = okJson (.jsonPolicies l))
  ∧ ((serveDataNodes s).1 =
      okJson (.jsonDataNodes (s.dataNodes.map fun n => ⟨n.id, n.url.str⟩))) := by
  refine ⟨?_, ?_, ?_, ?_, ?_, ?_, ?_, ?_, ?_, ?_, rfl, rfl, ?_, ?_, rfl⟩
  · intro name hne hcr
    simp [serveCreateDatabase, hne, hcr]
  · intro db p hcr
    simp [serveCreateRetentionPolicy, hcr]
  · intro urlParse n u hparse hcr
    simp [serveCreateDataNode, hparse, hcr]
  · intro h r nu hoff hcr
    unfold serveCreateUser
    simp [hoff, createUserCore, hcr]
  · intro name hdel
    simp [serveDeleteDatabase, hdel]
  · intro name hdel
    simp [serveDeleteUser, hdel]
  · intro db name hdel
    simp [serveDeleteRetentionPolicy, hdel]
  · intro idStr n hid hdel
    simp [serveDeleteDataNode, hid, hdel]
  · intro name hup
    simp [serveUpdateUser, hup]
  · intro db name p hup
    simp [serveUpdateRetentionPolicy, hup]
  · intro db l hsh
    simp [serveShards, hsh]
  · intro db l hrp
    simp [serveRetentionPolicies, hrp]

/-- Witness for the amended C6, one instance per conjunct, at the store
where every operation succeeds. -/
theorem C6_success_statuses_witness :
    (serveCreateDatabase srvOk (.ok (asciiBytes "metrics"))).1 = created
  ∧ (serveCreateRetentionPolicy srvOk (asciiBytes "db0") (.ok ⟨0⟩)).1 = created
  ∧ (serveCreateDataNode (fun s2 => some ⟨s2⟩) srvOk
      (.ok { id := 0, url := asciiBytes "x" })).1.status = 201
  ∧ (serveCreateUser cfgOff srvOk req0 (.ok bootAdmin)).1 = ok200
  ∧ (serveDeleteDatabase srvOk (asciiBytes "db0")).1 = noContent
  ∧ (serveDeleteUser srvOk (asciiBytes "bob")).1 = noContent
  ∧ (serveDeleteRetentionPolicy srvOk (asciiBytes "db0") (asciiBytes "rp0")).1 = noContent
  ∧ (serveDeleteDataNode srvOk (asciiBytes "7")).1 = noContent
  ∧ (serveUpdateUser srvOk (asciiBytes "alice") (.ok ())).1 = noContent
  ∧ (serveUpdateRetentionPolicy srvOk (asciiBytes "db0") (asciiBytes "rp0") (.ok ⟨0⟩)).1 =
      noContent
  ∧ (serveDatabases srvOk).1 = okJson (.jsonDatabases srvOk.databases)
  ∧ (serveUsers srvOk).1 = okJson (.jsonUsers (srvOk.users.map fun u => ⟨u.name, [], u.admin⟩))
  ∧ (serveShards srvOk (asciiBytes "db0")).1 = okJson (.jsonShards [])
  ∧ (serveRetentionPolicies srvOk (asciiBytes "db0")).1 = okJson (.jsonPolicies [])
  ∧ (serveDataNodes srvOk).1 =
      okJson (.jsonDataNodes (srvOk.dataNodes.map fun n => ⟨n.id, n.url.str⟩)) := by
  obtain ⟨c1, c2, c3, c4, c5, c6, c7, c8, c9, c10, c11, c12, c13, c14, c15⟩ :=
    C6_success_statuses srvOk
  exact ⟨c1 _ (by decide) rfl, c2 _ _ rfl, c3 _ _ ⟨asciiBytes "x"⟩ rfl rfl,
    c4 cfgOff req0 bootAdmin rfl rfl, c5 _ rfl, c6 _ rfl, c7 _ _ rfl,
    c8 _ 7 (by decide) rfl, c9 _ rfl, c10 _ _ _ rfl, c11, c12, c13 _ [] rfl,
    c14 _ [] rfl, c15⟩

end InfluxHandler
